import Mathlib

/-!
Verification development for the pict-cam-wittypi-recorder program
(src/recorder.py).  The recording orchestrator is shallow-embedded:
the global status record, the camera manager, the recording session
function do_record_until, the two scheduler workers, and the HTTP
control surface handlers become Lean functions over explicit state,
with timestamps as integers (seconds) and device faults as boolean
oracles.  Theorems below settle the specified properties.
-/

namespace Recorder

/-- The four values of the mode field of the global status record
(recorder.py line 91). -/
inductive Mode where
  | idle
  | waiting
  | recording_duration
  | recording_wittypi
  deriving DecidableEq, Repr

/-- Whether a mode is one of the two recording modes. -/
def Mode.isRecordingMode : Mode → Bool
  | Mode.recording_duration => true
  | Mode.recording_wittypi => true
  | Mode.idle => false
  | Mode.waiting => false

/-- The global status record (the state dict, recorder.py lines 90-97).
Timestamps are integers (epoch seconds). -/
structure Status where
  mode : Mode
  recording : Bool
  record_start : Option Int
  record_stop_target : Option Int
  last_error : String
  preview_on : Bool
  deriving DecidableEq, Repr

/-- The initial value of the status record (recorder.py lines 90-97). -/
def initStatus : Status :=
  { mode := Mode.idle, recording := false, record_start := none,
    record_stop_target := none, last_error := "", preview_on := false }

/-- SAFETY_MARGIN_SECONDS = 60 (recorder.py line 53). -/
def SAFETY_MARGIN_SECONDS : Int := 60

/-- CHECK_INTERVAL = 30, the poll interval in seconds (recorder.py line 54). -/
def CHECK_INTERVAL : Nat := 30

/-- The last_error message written when open_with_retry exhausts its
attempts (recorder.py line 246). -/
def cameraOpenError : String := "Cannot open camera (MMAL/ENOMEM or busy)."

/-- A write target active on the camera device: a session output file
(cam.start_recording(str(path), ...)) or the MJPEG preview writer
(cam.start_recording(writer, ...)). -/
inductive WTarget where
  | h264File
  | mjpeg
  deriving DecidableEq, Repr

/-- Combined mutable state of the process: the status record, whether
the CameraManager holds an open camera handle (self.cam is not None),
the active write target on the device (at most one, since PiCamera
raises when start_recording is called while already recording), and the
record_stop_event flag. -/
structure Sys where
  status : Status
  cam : Bool
  target : Option WTarget
  stopEvent : Bool
  deriving DecidableEq, Repr

/-- Fault oracle for one session: whether constructing PiCamera
succeeds, and whether the device-level start_recording call succeeds
when no other write target is active. -/
structure Env where
  openOk : Bool
  startOk : Bool
  deriving DecidableEq, Repr

/-- Result of one run of do_record_until: the final state, the list of
status values observable after each status write (in order), whether
the status was ever marked recording, whether any frames were written
to the session file, and the value of record_stop_event on entry to the
session (none when no session ran). -/
structure RecResult where
  sys : Sys
  statusTrace : List Status
  everMarkedRecording : Bool
  framesWritten : Bool
  cancelAtStart : Option Bool
  deriving Repr

/-- do_record_until (recorder.py lines 366-397).  Branches:
open_with_retry fails (writes last_error, aborts holding no camera);
CAM.start_recording fails, either because a write target is already
active on the device or by a device fault (the code logs and returns,
leaving the camera open and the status untouched); or the session runs:
the status is marked recording with the stop target, the loop writes
frames until deadline or cancel, and the finally block stops the write
target, resets the status to idle and closes the camera. -/
def do_record_until (env : Env) (stop_at now : Int) (s : Sys) : RecResult :=
  if s.cam = false ∧ env.openOk = false then
    let stErr : Status := { s.status with last_error := cameraOpenError }
    { sys := { s with status := stErr }, statusTrace := [stErr],
      everMarkedRecording := false, framesWritten := false,
      cancelAtStart := some s.stopEvent }
  else if s.target.isSome = true ∨ env.startOk = false then
    { sys := { s with cam := true }, statusTrace := [],
      everMarkedRecording := false, framesWritten := false,
      cancelAtStart := some s.stopEvent }
  else
    let stRec : Status :=
      { s.status with
        recording := true,
        record_start := some now,
        record_stop_target := some stop_at }
    let stIdle : Status :=
      { stRec with
        recording := false,
        record_stop_target := none,
        mode := Mode.idle }
    { sys := { status := stIdle, cam := false, target := none,
               stopEvent := s.stopEvent },
      statusTrace := [stRec, stIdle],
      everMarkedRecording := true, framesWritten := true,
      cancelAtStart := some s.stopEvent }

/-- worker_duration_once (recorder.py lines 416-422): writes
mode := recording_duration, clears record_stop_event, then runs
do_record_until with stop target now + seconds.  The trace is the mode
write followed by the status writes of the session. -/
def worker_duration_once (env : Env) (seconds now : Int) (s : Sys) : RecResult :=
  let st1 : Status := { s.status with mode := Mode.recording_duration }
  let r := do_record_until env (now + seconds) now
    { s with status := st1, stopEvent := false }
  { r with statusTrace := st1 :: r.statusTrace }

/-- Result of one iteration of the wittypi loop: the session result (or
a no-session placeholder), the stop target of the session it launched
(none when it stayed waiting), and the seconds slept before the next
poll. -/
structure IterResult where
  res : RecResult
  sessionStop : Option Int
  sleepAfter : Nat
  deriving Repr

/-- One iteration of worker_wittypi_loop (recorder.py lines 399-414):
writes mode := waiting, polls the oracle; when a next shutdown exists
and the remaining time exceeds SAFETY_MARGIN_SECONDS + 5 it writes
mode := recording_wittypi, clears record_stop_event and runs
do_record_until with stop target shutdown minus the safety margin, then
continues immediately (sleepAfter = 0); otherwise it sleeps
CHECK_INTERVAL and re-polls. -/
def wittypi_iteration (env : Env) (next : Option Int) (now : Int) (s : Sys) :
    IterResult :=
  let stW : Status := { s.status with mode := Mode.waiting }
  let sW : Sys := { s with status := stW }
  match next with
  | none =>
      { res := { sys := sW, statusTrace := [stW], everMarkedRecording := false,
                 framesWritten := false, cancelAtStart := none },
        sessionStop := none, sleepAfter := CHECK_INTERVAL }
  | some t =>
      if SAFETY_MARGIN_SECONDS + 5 < t - now then
        let stR : Status := { stW with mode := Mode.recording_wittypi }
        let r := do_record_until env (t - SAFETY_MARGIN_SECONDS) now
          { sW with status := stR, stopEvent := false }
        { res := { r with statusTrace := stW :: stR :: r.statusTrace },
          sessionStop := some (t - SAFETY_MARGIN_SECONDS), sleepAfter := 0 }
      else
        { res := { sys := sW, statusTrace := [stW], everMarkedRecording := false,
                   framesWritten := false, cancelAtStart := none },
          sessionStop := none, sleepAfter := CHECK_INTERVAL }

/-- Outcome of a GET /preview request. -/
inductive PrevOutcome where
  | rejected
  | failed
  | streaming
  deriving DecidableEq, Repr

/-- GET /preview (recorder.py lines 592-615) together with the
_mjpeg_streamer it spawns (lines 295-343): rejected with 409 while the
status says recording; otherwise open_with_retry (failure aborts the
stream), then cam.start_recording with the MJPEG writer, which raises
when another write target is active; on success preview_on is set and
frames stream without storage. -/
def preview_get (env : Env) (s : Sys) : Sys × PrevOutcome :=
  if s.status.recording = true then (s, PrevOutcome.rejected)
  else if s.cam = false ∧ env.openOk = false then
    ({ s with status := { s.status with last_error := cameraOpenError } },
     PrevOutcome.failed)
  else if s.target.isSome = true then
    ({ s with cam := true }, PrevOutcome.failed)
  else
    ({ s with
        cam := true,
        target := some WTarget.mjpeg,
        status := { s.status with preview_on := true } },
     PrevOutcome.streaming)

/-- HTTP responses of the control surface POST handlers. -/
inductive HResp where
  | redirect
  | httpError (code : Nat)
  deriving DecidableEq, Repr

/-- The seconds field parse of POST /start_duration (recorder.py lines
647-651): int() conversion then the range check 1 <= sec <= 18000; any
failure raises and is answered with 400.  none models a missing or
non-integer field. -/
def parse_seconds (field : Option Int) : Option Int :=
  match field with
  | none => none
  | some sec => if 1 ≤ sec ∧ sec ≤ 18000 then some sec else none

/-- POST /start_duration (recorder.py lines 643-662): parse failure is
400; otherwise the recording flag is read under state_lock and a true
value is answered 409 with no worker launched; else 302 and a
worker_duration_once thread is launched.  The Bool is whether a worker
was launched. -/
def post_start_duration (st : Status) (field : Option Int) : HResp × Bool :=
  match parse_seconds field with
  | none => (HResp.httpError 400, false)
  | some _ =>
      if st.recording = true then (HResp.httpError 409, false)
      else (HResp.redirect, true)

/-- POST /start_wittypi (recorder.py lines 664-672): the recording flag
is read under state_lock; true is answered 409 with no worker launched,
else 302 and a worker_wittypi_loop thread is launched. -/
def post_start_wittypi (st : Status) : HResp × Bool :=
  if st.recording = true then (HResp.httpError 409, false)
  else (HResp.redirect, true)

/-- POST /stop (recorder.py lines 674-682): when not recording, 302 and
the record_stop_event flag is left untouched; when recording, the flag
is set and 302.  Returns the response and the new flag value. -/
def post_stop (st : Status) (flag : Bool) : HResp × Bool :=
  if st.recording = true then (HResp.redirect, true)
  else (HResp.redirect, flag)

/-- Result of CameraManager.open_with_retry: success, the times (in
seconds from entry) at which the open attempts started, the last_error
write performed (empty string when none), and whether a camera handle
is held afterwards. -/
structure RetryResult where
  success : Bool
  attemptTimes : List Nat
  last_error : String
  camOpen : Bool
  deriving Repr

/-- The retry loop of open_with_retry (recorder.py lines 235-244):
attempt i at time t; on success the handle is held and the loop ends;
on failure the loop sleeps delay seconds and retries; on exhaustion
last_error is written and no handle is held. -/
def retryLoop (device : Nat → Bool) (i attemptsLeft t d : Nat) : RetryResult :=
  match attemptsLeft with
  | 0 =>
      { success := false, attemptTimes := [],
        last_error := cameraOpenError, camOpen := false }
  | k + 1 =>
      if device i then
        { success := true, attemptTimes := [t], last_error := "",
          camOpen := true }
      else
        let r := retryLoop device (i + 1) k (t + d) d
        { r with attemptTimes := t :: r.attemptTimes }

/-- CameraManager.open_with_retry (recorder.py lines 231-247): returns
success immediately when a handle is already held, otherwise runs the
retry loop with the given attempt count and inter-attempt delay. -/
def open_with_retry (device : Nat → Bool) (camAlready : Bool)
    (attempts d : Nat) : RetryResult :=
  if camAlready then
    { success := true, attemptTimes := [], last_error := "", camOpen := true }
  else retryLoop device 1 attempts 0 d

/-- Shutdown-path state: whether a session write target is open,
the stop_requested and record_stop_event flags, and whether main has
returned (after which the process exits, abandoning daemon threads). -/
structure ProcState where
  writeOpen : Bool
  stopReq : Bool
  stopEvt : Bool
  mainExited : Bool
  deriving DecidableEq, Repr

/-- _on_signal (recorder.py lines 714-716): sets stop_requested and
record_stop_event. -/
def on_signal (s : ProcState) : ProcState :=
  { s with stopReq := true, stopEvt := true }

/-- Interleaved steps of the shutdown path (recorder.py lines 697-718):
a signal runs on_signal; the main loop, which only checks
stop_requested, returns once the flag is set (it performs no join of
the daemon worker threads); a running session observes
record_stop_event at a tick boundary and tears down, closing its write
target. -/
inductive PStep : ProcState → ProcState → Prop where
  | signal (s : ProcState) : PStep s (on_signal s)
  | mainExit (s : ProcState) (h : s.stopReq = true) :
      PStep s { s with mainExited := true }
  | teardown (s : ProcState) (h : s.stopEvt = true) :
      PStep s { s with writeOpen := false }

/-- Durable artifacts of one session: the raw .h264 file and the .mp4. -/
structure Artifacts where
  raw : Bool
  mp4 : Bool
  deriving DecidableEq, Repr

/-- wrap_to_mp4 (recorder.py lines 129-149): when ffmpeg is absent the
wrap is skipped and the raw file kept; when the conversion succeeds the
mp4 exists and the raw file is unlinked; when the conversion fails the
failure is logged and the raw file kept. -/
def wrap_to_mp4 (ffmpegPresent wrapOk : Bool) (a : Artifacts) : Artifacts :=
  if ffmpegPresent = false then a
  else if wrapOk = true then { raw := false, mp4 := true }
  else a

/-- RECORDINGS_DIR = Path.home() / "recordings", modeled as a component
list rooted at /. -/
def rec_dir : List String := ["home", "pi", "recordings"]

/-- A requested file name as the path components it denotes, with a
flag for an absolute name (a leading slash, which makes the Path join
discard the base). -/
structure RawName where
  absolute : Bool
  comps : List String
  deriving DecidableEq, Repr

/-- Whether the raw name string is empty (the not-name check). -/
def nameEmpty (n : RawName) : Bool := !n.absolute && n.comps.isEmpty

/-- RECORDINGS_DIR / name: an absolute name replaces the base. -/
def joinPath (base : List String) (n : RawName) : List String :=
  if n.absolute then n.comps else base ++ n.comps

/-- _safe_child_of (recorder.py lines 115-120):
path.resolve().relative_to(base.resolve()) succeeds exactly when the
resolved base is an initial segment of the resolved path (including equality). -/
def withinDir (base p : List String) : Bool := base.isPrefixOf p

/-- Result of GET /delete: HTTP code and the path the handler asked the
operating system to unlink, if any. -/
structure DelResult where
  code : Nat
  unlinkTarget : Option (List String)
  deriving DecidableEq, Repr

/-- Result of GET /download: HTTP code and the path whose contents were
served, if any. -/
structure DlResult where
  code : Nat
  served : Option (List String)
  deriving DecidableEq, Repr

/-- GET /delete (recorder.py lines 578-590).  res is the OS path
resolution (including symlinks), ex the existence test, unlinkOk
whether the OS unlink succeeds.  The guard answers 404 when the name is
empty, the resolved target does not exist, or _safe_child_of fails;
otherwise unlink is attempted on the target. -/
def delete_handler (res : List String → List String)
    (ex unlinkOk : List String → Bool) (n : RawName) : DelResult :=
  let target := res (joinPath rec_dir n)
  if nameEmpty n || !ex target || !withinDir (res rec_dir) target then
    { code := 404, unlinkTarget := none }
  else if unlinkOk target then
    { code := 302, unlinkTarget := some target }
  else
    { code := 500, unlinkTarget := some target }

/-- GET /download (recorder.py lines 554-576), with the same guard as
/delete; readOk is whether opening and streaming the target succeeds. -/
def download_handler (res : List String → List String)
    (ex readOk : List String → Bool) (n : RawName) : DlResult :=
  let target := res (joinPath rec_dir n)
  if nameEmpty n || !ex target || !withinDir (res rec_dir) target then
    { code := 404, served := none }
  else if readOk target then
    { code := 200, served := some target }
  else
    { code := 500, served := none }

/-- A concrete resolver with no symlinks: folds away single-dot
components and lets a double-dot drop the last component, as
Path.resolve does on a symlink-free tree. -/
def normComps (p : List String) : List String :=
  p.foldl
    (fun acc c =>
      if c = "." then acc else if c = ".." then acc.dropLast else acc ++ [c])
    []

/-- A path is a proper child of base when base is a strict initial segment. -/
def properChild (base p : List String) : Bool :=
  withinDir base p && !(p == base)

/-- The status invariant claimed by the spec: recording iff the mode is
a recording mode, and the stop target is set iff recording. -/
def statusInv (st : Status) : Prop :=
  st.recording = st.mode.isRecordingMode ∧
  st.record_stop_target.isSome = st.recording

instance (st : Status) : Decidable (statusInv st) :=
  decidable_of_iff
    (st.recording = st.mode.isRecordingMode ∧
      st.record_stop_target.isSome = st.recording) Iff.rfl

/-- The weakening of the status invariant that the code does maintain:
recording implies a recording mode, and the stop target is set iff
recording. -/
def weakInv (st : Status) : Prop :=
  (st.recording = true → st.mode.isRecordingMode = true) ∧
  st.record_stop_target.isSome = st.recording

instance (st : Status) : Decidable (weakInv st) :=
  decidable_of_iff
    ((st.recording = true → st.mode.isRecordingMode = true) ∧
      st.record_stop_target.isSome = st.recording) Iff.rfl

-- Every status value written by do_record_until satisfies the weak
-- invariant, provided the session is entered not recording, with no
-- stop target set, and with the mode already a recording mode.
theorem do_record_statusTrace_weakInv (env : Env) (stop_at now : Int) (s : Sys)
    (h1 : s.status.recording = false) (h2 : s.status.record_stop_target = none)
    (h3 : s.status.mode.isRecordingMode = true) :
    ∀ st ∈ (do_record_until env stop_at now s).statusTrace, weakInv st := by
  unfold do_record_until
  split
  · intro st hst
    simp only [List.mem_singleton] at hst
    subst hst
    refine ⟨fun hr => ?_, ?_⟩
    · rw [show ({ s.status with last_error := cameraOpenError } : Status).recording
          = s.status.recording from rfl, h1] at hr
      exact absurd hr (by simp)
    · show s.status.record_stop_target.isSome = s.status.recording
      rw [h1, h2]
      rfl
  · split
    · intro st hst
      simp at hst
    · intro st hst
      simp only [List.mem_cons, List.mem_singleton, List.not_mem_nil,
        or_false] at hst
      rcases hst with h | h
      · subst h
        exact ⟨fun _ => h3, rfl⟩
      · subst h
        exact ⟨fun hr => absurd hr (by simp), rfl⟩

/-- Claim C1, counterexample: running the fixed-duration worker from
the initial state produces an observable status (the one right after
the worker writes mode := recording_duration, before do_record_until
marks recording) that violates the claimed invariant: its mode is a
recording mode while recording is false. -/
theorem c1_counterexample :
    ¬ ∀ st ∈ (worker_duration_once ⟨true, true⟩ 5 0
        ⟨initStatus, false, none, false⟩).statusTrace, statusInv st := by
  decide

/-- Claim C1, amended: at every point observable by a status reader
during a fixed-duration worker run or a wittypi-loop iteration, the
status satisfies the weakened invariant: recording implies the mode is
one of the two recording modes, and the stop target is set iff
recording is true.  The full biconditional of the claim fails, because
each worker writes a recording mode into the status before
do_record_until marks recording (and leaves it there when opening the
camera or starting the write target fails). -/
theorem c1_amended (env : Env) (seconds now : Int) (next : Option Int) (s : Sys)
    (h1 : s.status.recording = false)
    (h2 : s.status.record_stop_target = none) :
    (∀ st ∈ (worker_duration_once env seconds now s).statusTrace, weakInv st) ∧
    (∀ st ∈ (wittypi_iteration env next now s).res.statusTrace, weakInv st) := by
  constructor
  · intro st hst
    unfold worker_duration_once at hst
    simp only [List.mem_cons] at hst
    rcases hst with h | h
    · subst h
      exact ⟨fun hr => absurd (h1 ▸ hr) (by simp), by rw [h2, h1]; rfl⟩
    · exact do_record_statusTrace_weakInv env (now + seconds) now
        ⟨⟨Mode.recording_duration, s.status.recording, s.status.record_start,
          s.status.record_stop_target, s.status.last_error, s.status.preview_on⟩,
         s.cam, s.target, false⟩
        h1 h2 rfl st h
  · intro st hst
    unfold wittypi_iteration at hst
    rcases next with _ | t
    · simp only [List.mem_singleton] at hst
      subst hst
      exact ⟨fun hr => absurd (h1 ▸ hr) (by simp), by rw [h2, h1]; rfl⟩
    · simp only at hst
      split at hst
      · simp only [List.mem_cons] at hst
        rcases hst with h | h | h
        · subst h
          exact ⟨fun hr => absurd (h1 ▸ hr) (by simp), by rw [h2, h1]; rfl⟩
        · subst h
          exact ⟨fun hr => absurd (h1 ▸ hr) (by simp), by rw [h2, h1]; rfl⟩
        · exact do_record_statusTrace_weakInv env (t - SAFETY_MARGIN_SECONDS) now
            ⟨⟨Mode.recording_wittypi, s.status.recording, s.status.record_start,
              s.status.record_stop_target, s.status.last_error,
              s.status.preview_on⟩,
             s.cam, s.target, false⟩
            h1 h2 rfl st h
      · simp only [List.mem_singleton] at hst
        subst hst
        exact ⟨fun hr => absurd (h1 ▸ hr) (by simp), by rw [h2, h1]; rfl⟩

/-- Witness for c1_amended at a concrete input: the first observable
status of a concrete fixed-duration worker run satisfies the weak
invariant. -/
theorem c1_amended_witness :
    (⟨initStatus, false, none, false⟩ : Sys).status.recording = false ∧
    (⟨initStatus, false, none, false⟩ : Sys).status.record_stop_target = none ∧
    weakInv ⟨Mode.recording_duration, false, none, none, "", false⟩ :=
  ⟨rfl, rfl,
    (c1_amended ⟨true, true⟩ 5 0 none ⟨initStatus, false, none, false⟩ rfl rfl).1
      ⟨Mode.recording_duration, false, none, none, "", false⟩ (by decide)⟩

/-- Claim C2, counterexample: with the camera closed, a successful
camera open and a failing write-target start, do_record_until returns
with the camera handle still open — the claim that the session aborts
with the camera released (closed) is false. -/
theorem c2_counterexample :
    ¬ (do_record_until ⟨true, false⟩ 100 0
        ⟨initStatus, false, none, false⟩).sys.cam = false := by
  decide

/-- Claim C2, amended: for every session in which the camera opens
successfully (or is already open) but starting the write target fails,
the session aborts at the Starting state with no further side effects —
the status is never marked recording, no frames are written, and not a
single status write is performed — but the camera is not released: the
handle remains open. -/
theorem c2_amended (env : Env) (stop_at now : Int) (s : Sys)
    (hopen : s.cam = true ∨ env.openOk = true)
    (hstart : s.target.isSome = true ∨ env.startOk = false) :
    (do_record_until env stop_at now s).everMarkedRecording = false ∧
    (do_record_until env stop_at now s).framesWritten = false ∧
    (do_record_until env stop_at now s).statusTrace = [] ∧
    (do_record_until env stop_at now s).sys.status = s.status ∧
    (do_record_until env stop_at now s).sys.cam = true := by
  have hc : ¬ (s.cam = false ∧ env.openOk = false) := by
    rcases hopen with h | h <;> simp [h]
  unfold do_record_until
  rw [if_neg hc, if_pos hstart]
  exact ⟨rfl, rfl, rfl, rfl, rfl⟩

/-- Witness for c2_amended at a concrete input: camera already open,
device start failing. -/
theorem c2_amended_witness :
    ((⟨initStatus, true, none, false⟩ : Sys).cam = true ∨
      (⟨true, false⟩ : Env).openOk = true) ∧
    ((⟨initStatus, true, none, false⟩ : Sys).target.isSome = true ∨
      (⟨true, false⟩ : Env).startOk = false) ∧
    (do_record_until ⟨true, false⟩ 100 0
      ⟨initStatus, true, none, false⟩).sys.cam = true :=
  ⟨Or.inl rfl, Or.inr rfl,
    (c2_amended ⟨true, false⟩ 100 0 ⟨initStatus, true, none, false⟩
      (Or.inl rfl) (Or.inr rfl)).2.2.2.2⟩

/-- Claim C3, counterexample: with a preview active (camera open,
MJPEG write target active, preview_on set), a recording start runs
do_record_until; afterwards the preview is still active and the
recording never started its own write target nor marked the status
recording — the code does not forcibly end the active preview before
starting its write target, it aborts instead. -/
theorem c3_counterexample :
    (do_record_until ⟨true, true⟩ 100 0
      ⟨{ initStatus with preview_on := true }, true, some WTarget.mjpeg,
        false⟩).sys.status.preview_on = true ∧
    (do_record_until ⟨true, true⟩ 100 0
      ⟨{ initStatus with preview_on := true }, true, some WTarget.mjpeg,
        false⟩).sys.target = some WTarget.mjpeg ∧
    (do_record_until ⟨true, true⟩ 100 0
      ⟨{ initStatus with preview_on := true }, true, some WTarget.mjpeg,
        false⟩).everMarkedRecording = false := by
  decide

/-- Claim C3, amended: a preview request made while recording is true
is always rejected, and one made while recording is false succeeds
(camera-availability faults aside, and with no other write target
active); however, when a recording start runs while a preview is
active, the recording path does not end the preview: its own
write-target start fails and the session aborts, leaving the preview
running.  Recording and preview write targets are still never
simultaneously active, because the device accepts at most one write
target: the recording write target only ever starts when no other
target is active. -/
theorem c3_amended (env : Env) (stop_at now : Int) (s : Sys) :
    (s.status.recording = true → preview_get env s = (s, PrevOutcome.rejected)) ∧
    (s.status.recording = false → (s.cam = true ∨ env.openOk = true) →
      s.target = none →
      (preview_get env s).2 = PrevOutcome.streaming ∧
      (preview_get env s).1.status.preview_on = true) ∧
    (s.target = some WTarget.mjpeg →
      (do_record_until env stop_at now s).everMarkedRecording = false ∧
      (do_record_until env stop_at now s).framesWritten = false ∧
      (do_record_until env stop_at now s).sys.target = some WTarget.mjpeg ∧
      (do_record_until env stop_at now s).sys.status.preview_on
        = s.status.preview_on) ∧
    ((do_record_until env stop_at now s).everMarkedRecording = true →
      s.target = none) := by
  refine ⟨fun hrec => ?_, fun hrec hcam htgt => ?_, fun htgt => ?_, fun hmark => ?_⟩
  · unfold preview_get
    rw [if_pos hrec]
  · have hc : ¬ (s.cam = false ∧ env.openOk = false) := by
      rcases hcam with h | h <;> simp [h]
    unfold preview_get
    rw [if_neg (by simp [hrec]), if_neg hc, if_neg (by simp [htgt])]
    exact ⟨rfl, rfl⟩
  · unfold do_record_until
    split
    · exact ⟨rfl, rfl, by simp [htgt], rfl⟩
    · rw [if_pos (Or.inl (by simp [htgt]))]
      exact ⟨rfl, rfl, by simp [htgt], rfl⟩
  · by_cases h1 : s.cam = false ∧ env.openOk = false
    · unfold do_record_until at hmark
      rw [if_pos h1] at hmark
      exact absurd hmark (by simp)
    · by_cases h2 : s.target.isSome = true ∨ env.startOk = false
      · unfold do_record_until at hmark
        rw [if_neg h1, if_pos h2] at hmark
        exact absurd hmark (by simp)
      · rcases hs : s.target with _ | w
        · rfl
        · exact absurd (Or.inl (by simp [hs])) h2

/-- Witness for c3_amended at a concrete input: a preview request while
recording is rejected. -/
theorem c3_amended_witness :
    (⟨⟨Mode.recording_duration, true, some 0, some 100, "", false⟩,
        true, some WTarget.h264File, false⟩ : Sys).status.recording = true ∧
    preview_get ⟨true, true⟩
        ⟨⟨Mode.recording_duration, true, some 0, some 100, "", false⟩,
          true, some WTarget.h264File, false⟩
      = (⟨⟨Mode.recording_duration, true, some 0, some 100, "", false⟩,
          true, some WTarget.h264File, false⟩, PrevOutcome.rejected) :=
  ⟨rfl,
    (c3_amended ⟨true, true⟩ 0 0
      ⟨⟨Mode.recording_duration, true, some 0, some 100, "", false⟩,
        true, some WTarget.h264File, false⟩).1 rfl⟩

/-- Claim C4, confirmed: on each poll of the wittypi loop, if the
oracle returns no next shutdown, or the remaining time to it is not
greater than the safety margin plus the 5-second guard band, the
iteration launches no session, touches no camera (camera handle and
write target unchanged), leaves the mode at waiting and sleeps one poll
interval; otherwise it launches a session whose stop target is exactly
the next-shutdown instant minus the safety margin and re-polls
immediately without sleeping. -/
theorem c4_confirmed (env : Env) (next : Option Int) (now : Int) (s : Sys) :
    ((next = none ∨ ∃ t, next = some t ∧ t - now ≤ SAFETY_MARGIN_SECONDS + 5) →
      (wittypi_iteration env next now s).sessionStop = none ∧
      (wittypi_iteration env next now s).sleepAfter = CHECK_INTERVAL ∧
      (wittypi_iteration env next now s).res.sys.cam = s.cam ∧
      (wittypi_iteration env next now s).res.sys.target = s.target ∧
      (wittypi_iteration env next now s).res.sys.status.mode = Mode.waiting ∧
      (wittypi_iteration env next now s).res.everMarkedRecording = false) ∧
    (∀ t, next = some t → SAFETY_MARGIN_SECONDS + 5 < t - now →
      (wittypi_iteration env next now s).sessionStop
        = some (t - SAFETY_MARGIN_SECONDS) ∧
      (wittypi_iteration env next now s).sleepAfter = 0) := by
  constructor
  · intro hwait
    rcases next with _ | t
    · exact ⟨rfl, rfl, rfl, rfl, rfl, rfl⟩
    · rcases hwait with h | ⟨u, hu, hle⟩
      · exact absurd h (by simp)
      · have ht : u = t := by
          have := hu.symm
          simpa using this
        subst ht
        simp only [wittypi_iteration]
        rw [if_neg (show ¬ SAFETY_MARGIN_SECONDS + 5 < u - now by omega)]
        exact ⟨rfl, rfl, rfl, rfl, rfl, rfl⟩
  · intro t ht hgt
    subst ht
    simp only [wittypi_iteration]
    rw [if_pos hgt]
    exact ⟨rfl, rfl⟩

/-- Witness for c4_confirmed at a concrete input: oracle reports a
shutdown 500 seconds out, safety margin 60 — the session stop target is
exactly 440 and the loop re-polls immediately; and with no oracle
answer the loop waits one poll interval. -/
theorem c4_confirmed_witness :
    (SAFETY_MARGIN_SECONDS + 5 < (500 : Int) - 0) ∧
    (wittypi_iteration ⟨true, true⟩ (some 500) 0
        ⟨initStatus, false, none, false⟩).sessionStop = some 440 ∧
    (wittypi_iteration ⟨true, true⟩ (some 500) 0
        ⟨initStatus, false, none, false⟩).sleepAfter = 0 ∧
    (wittypi_iteration ⟨true, true⟩ none 0
        ⟨initStatus, false, none, false⟩).sessionStop = none := by
  refine ⟨by decide, ?_, ?_, ?_⟩
  · have h := (c4_confirmed ⟨true, true⟩ (some 500) 0
      ⟨initStatus, false, none, false⟩).2 500 rfl (by decide)
    simpa using h.1
  · exact ((c4_confirmed ⟨true, true⟩ (some 500) 0
      ⟨initStatus, false, none, false⟩).2 500 rfl (by decide)).2
  · exact ((c4_confirmed ⟨true, true⟩ none 0
      ⟨initStatus, false, none, false⟩).1 (Or.inl rfl)).1

/-- Claim C5, counterexample: a fixed-duration start request whose
seconds field is out of range (99999), arriving while the status says
recording, is rejected with the invalid-range error 400, not with the
already-recording error 409 that the claim requires for every start
request arriving while recording is true. -/
theorem c5_counterexample :
    (post_start_duration
        ⟨Mode.recording_duration, true, some 0, some 100, "", false⟩
        (some 99999)).1 = HResp.httpError 400 ∧
    ¬ (post_start_duration
        ⟨Mode.recording_duration, true, some 0, some 100, "", false⟩
        (some 99999)).1 = HResp.httpError 409 := by
  decide

/-- Claim C5, amended: for every start request arriving while
Status.recording is true, regardless of the prior mode, no new worker
task is launched; the follow-schedule request, and every fixed-duration
request whose seconds field parses and lies in range, are rejected with
the already-recording error 409 (the recording flag is read under the
status lock); a fixed-duration request whose seconds field is invalid
is rejected with the invalid-range error 400 instead. -/
theorem c5_amended (st : Status) (field : Option Int)
    (h : st.recording = true) :
    (post_start_duration st field).2 = false ∧
    post_start_wittypi st = (HResp.httpError 409, false) ∧
    (∀ n, parse_seconds field = some n →
      (post_start_duration st field).1 = HResp.httpError 409) := by
  refine ⟨?_, ?_, ?_⟩
  · unfold post_start_duration
    rcases parse_seconds field with _ | n
    · rfl
    · simp only
      rw [if_pos h]
  · unfold post_start_wittypi
    rw [if_pos h]
  · intro n hn
    unfold post_start_duration
    rw [hn]
    simp only
    rw [if_pos h]

/-- Witness for c5_amended at a concrete input: a follow-schedule start
while recording is answered 409 with no worker launched. -/
theorem c5_amended_witness :
    (⟨Mode.recording_wittypi, true, some 0, some 100, "", false⟩
        : Status).recording = true ∧
    post_start_wittypi ⟨Mode.recording_wittypi, true, some 0, some 100, "", false⟩
      = (HResp.httpError 409, false) :=
  ⟨rfl,
    (c5_amended ⟨Mode.recording_wittypi, true, some 0, some 100, "", false⟩
      (some 5) rfl).2.1⟩

-- Against an always-failing device the retry loop makes one attempt
-- per remaining count, with the attempt start times d apart.
theorem retryLoopF_length (n i t d : Nat) :
    (retryLoop (fun _ => false) i n t d).attemptTimes.length = n := by
  induction n generalizing i t with
  | zero => rfl
  | succ k ih =>
      simp [retryLoop, ih]

theorem retryLoopF_getD (n i t d j : Nat) (h : j < n) :
    (retryLoop (fun _ => false) i n t d).attemptTimes.getD j 0 = t + j * d := by
  induction n generalizing i t j with
  | zero => omega
  | succ k ih =>
      rcases j with _ | m
      · simp [retryLoop]
      · have hm : m < k := by omega
        show (retryLoop (fun _ => false) (i + 1) k (t + d) d).attemptTimes.getD m 0
          = t + (m + 1) * d
        rw [ih (i + 1) (t + d) m hm]
        ring

theorem retryLoopF_fields (n i t d : Nat) :
    (retryLoop (fun _ => false) i n t d).success = false ∧
    (retryLoop (fun _ => false) i n t d).camOpen = false ∧
    (retryLoop (fun _ => false) i n t d).last_error = cameraOpenError := by
  induction n generalizing i t with
  | zero => exact ⟨rfl, rfl, rfl⟩
  | succ k ih => exact ih (i + 1) (t + d)

/-- Claim C6, confirmed: for every attempt count n >= 1 and delay d,
open_with_retry invoked with no handle held against a device whose open
always fails performs exactly n open attempts, consecutive attempts are
spaced exactly d seconds apart (so at least d seconds of sleep between
them), it returns failure with last_error set to a non-empty message,
and no camera handle is held afterwards. -/
theorem c6_confirmed (n d : Nat) (_h : 1 ≤ n) :
    (open_with_retry (fun _ => false) false n d).success = false ∧
    (open_with_retry (fun _ => false) false n d).attemptTimes.length = n ∧
    ¬ (open_with_retry (fun _ => false) false n d).last_error = "" ∧
    (open_with_retry (fun _ => false) false n d).camOpen = false ∧
    (∀ j, j + 1 < n →
      (open_with_retry (fun _ => false) false n d).attemptTimes.getD (j + 1) 0
        = (open_with_retry (fun _ => false) false n d).attemptTimes.getD j 0
          + d) := by
  have hfields := retryLoopF_fields n 1 0 d
  refine ⟨?_, ?_, ?_, ?_, ?_⟩
  · exact hfields.1
  · exact retryLoopF_length n 1 0 d
  · show ¬ (retryLoop (fun _ => false) 1 n 0 d).last_error = ""
    rw [hfields.2.2]
    unfold cameraOpenError
    simp
  · exact hfields.2.1
  · intro j hj
    show (retryLoop (fun _ => false) 1 n 0 d).attemptTimes.getD (j + 1) 0
      = (retryLoop (fun _ => false) 1 n 0 d).attemptTimes.getD j 0 + d
    rw [retryLoopF_getD n 1 0 d (j + 1) hj, retryLoopF_getD n 1 0 d j (by omega)]
    ring

/-- Witness for c6_confirmed at a concrete input: three attempts with a
two-second delay. -/
theorem c6_confirmed_witness :
    1 ≤ 3 ∧
    (open_with_retry (fun _ => false) false 3 2).success = false ∧
    (open_with_retry (fun _ => false) false 3 2).attemptTimes.length = 3 :=
  ⟨by decide, (c6_confirmed 3 2 (by decide)).1, (c6_confirmed 3 2 (by decide)).2.1⟩

/-- Claim C7, counterexample: from a state with an open write target,
after the shutdown signal the main loop can exit before the session
teardown step runs (the workers are daemon threads that main never
joins), so a state with mainExited and the write target still open is
reachable — refuting the claim that the process never exits while a
write target is open. -/
theorem c7_counterexample :
    ¬ (∀ s : ProcState,
        Relation.ReflTransGen PStep ⟨true, false, false, false⟩ s →
        s.mainExited = true → s.writeOpen = false) := by
  intro hclaim
  have h1 : PStep ⟨true, false, false, false⟩ ⟨true, true, true, false⟩ :=
    PStep.signal ⟨true, false, false, false⟩
  have h2 : PStep ⟨true, true, true, false⟩ ⟨true, true, true, true⟩ :=
    PStep.mainExit ⟨true, true, true, false⟩ rfl
  have hreach : Relation.ReflTransGen PStep ⟨true, false, false, false⟩
      ⟨true, true, true, true⟩ :=
    Relation.ReflTransGen.tail (Relation.ReflTransGen.tail
      Relation.ReflTransGen.refl h1) h2
  have := hclaim ⟨true, true, true, true⟩ hreach rfl
  exact absurd this (by decide)

/-- Claim C7, amended: on receipt of a process shutdown signal both the
scheduler stop flag and the session cancel flag are set, the main task
exits its wait loop only once the stop flag is set, and a session with
the cancel flag set can tear its write target down; but the main task
does not wait for that teardown — worker threads are daemon threads it
never joins — so the process may exit while a write target is still
open. -/
theorem pstep_preserves_exit_inv (b c : ProcState) (h : PStep b c)
    (hb : b.mainExited = true → b.stopReq = true) :
    c.mainExited = true → c.stopReq = true := by
  cases h with
  | signal => exact fun _ => rfl
  | mainExit hs => exact fun _ => hs
  | teardown hs => exact hb

theorem c7_amended :
    (∀ s : ProcState,
      (on_signal s).stopReq = true ∧ (on_signal s).stopEvt = true) ∧
    (∀ s t : ProcState, Relation.ReflTransGen PStep s t →
      (s.mainExited = true → s.stopReq = true) →
      t.mainExited = true → t.stopReq = true) ∧
    (∀ s : ProcState, s.stopEvt = true →
      PStep s { s with writeOpen := false }) := by
  refine ⟨fun s => ⟨rfl, rfl⟩, ?_, fun s h => PStep.teardown s h⟩
  intro s t hrt
  induction hrt with
  | refl => exact fun h => h
  | tail _hab hbc ih =>
      exact fun hinv => pstep_preserves_exit_inv _ _ hbc (ih hinv)

/-- Witness for c7_amended at a concrete input: applying the invariant
part along the empty step sequence from a state with the stop flag
set. -/
theorem c7_amended_witness :
    ((⟨true, true, false, false⟩ : ProcState).mainExited = true →
      (⟨true, true, false, false⟩ : ProcState).stopReq = true) ∧
    PStep ⟨true, false, true, false⟩
      { (⟨true, false, true, false⟩ : ProcState) with writeOpen := false } :=
  ⟨c7_amended.2.1 ⟨true, true, false, false⟩ ⟨true, true, false, false⟩
      Relation.ReflTransGen.refl (fun _ => rfl),
    c7_amended.2.2 ⟨true, false, true, false⟩ rfl⟩

/-- Claim C8, confirmed: whenever the mp4 re-wrap runs with ffmpeg
present and the conversion succeeding, the raw .h264 file is deleted
and the .mp4 exists; the raw file survives exactly when ffmpeg is
absent or the wrap fails. -/
theorem c8_confirmed (p ok : Bool) (a : Artifacts) (h : a.raw = true) :
    ((wrap_to_mp4 p ok a).raw = false ↔ (p = true ∧ ok = true)) ∧
    (p = true → ok = true → (wrap_to_mp4 p ok a).mp4 = true) := by
  cases p <;> cases ok <;> simp [wrap_to_mp4, h]

/-- Witness for c8_confirmed at a concrete input: ffmpeg present and
wrap succeeding on a session with the raw file present deletes the raw
file. -/
theorem c8_confirmed_witness :
    (⟨true, false⟩ : Artifacts).raw = true ∧
    (wrap_to_mp4 true true ⟨true, false⟩).raw = false :=
  ⟨rfl, (c8_confirmed true true ⟨true, false⟩ rfl).1.mpr ⟨rfl, rfl⟩⟩

/-- Claim C9, counterexample: the name ".", which is non-empty, exists,
and resolves to the recordings directory itself — not to a child of it —
passes the guard: the handler answers other than 404 and asks the
operating system to unlink the recordings directory itself.  This
refutes the claim that the endpoints operate only on paths resolving to
a child of the recordings directory (the OS-level unlink of a directory
then fails, shown here by the 500 answer). -/
theorem c9_counterexample :
    ¬ (delete_handler normComps (fun p => p == rec_dir) (fun _ => false)
        ⟨false, ["."]⟩).code = 404 ∧
    (delete_handler normComps (fun p => p == rec_dir) (fun _ => false)
        ⟨false, ["."]⟩).unlinkTarget = some rec_dir ∧
    properChild (normComps rec_dir) rec_dir = false := by
  refine ⟨?_, ?_, ?_⟩ <;> decide

/-- Claim C9, amended: for every resolver (including symlink
behaviour), existence oracle and requested name, the /download and
/delete endpoints operate only on a path that resolves to the
recordings directory itself or to a descendant of it: any name that is
empty, names a non-existent file, or resolves outside the directory is
answered 404 with nothing deleted and nothing disclosed, and any path
the handlers unlink or serve is an existing path within the resolved
recordings directory (possibly the directory itself, as the name "."
shows, in which case the OS-level file operation fails). -/
theorem c9_amended (res : List String → List String)
    (ex unl rd : List String → Bool) (n : RawName) :
    (nameEmpty n = true ∨ ex (res (joinPath rec_dir n)) = false ∨
        withinDir (res rec_dir) (res (joinPath rec_dir n)) = false →
      delete_handler res ex unl n = ⟨404, none⟩ ∧
      download_handler res ex rd n = ⟨404, none⟩) ∧
    (∀ p, (delete_handler res ex unl n).unlinkTarget = some p →
      withinDir (res rec_dir) p = true ∧ ex p = true) ∧
    (∀ p, (download_handler res ex rd n).served = some p →
      withinDir (res rec_dir) p = true ∧ ex p = true) := by
  have hguard :
      (nameEmpty n = true ∨ ex (res (joinPath rec_dir n)) = false ∨
        withinDir (res rec_dir) (res (joinPath rec_dir n)) = false) →
      (nameEmpty n || !ex (res (joinPath rec_dir n)) ||
        !withinDir (res rec_dir) (res (joinPath rec_dir n))) = true := by
    intro h
    rcases h with h | h | h <;> simp [h]
  refine ⟨fun h => ?_, fun p hp => ?_, fun p hp => ?_⟩
  · unfold delete_handler download_handler
    rw [if_pos (hguard h), if_pos (hguard h)]
    exact ⟨rfl, rfl⟩
  · by_cases hg : (nameEmpty n || !ex (res (joinPath rec_dir n)) ||
        !withinDir (res rec_dir) (res (joinPath rec_dir n))) = true
    · unfold delete_handler at hp
      rw [if_pos hg] at hp
      exact absurd hp (by simp)
    · have hx : ex (res (joinPath rec_dir n)) = true ∧
          withinDir (res rec_dir) (res (joinPath rec_dir n)) = true := by
        rcases hex : ex (res (joinPath rec_dir n)) with _ | _ <;>
          rcases hw : withinDir (res rec_dir) (res (joinPath rec_dir n))
            with _ | _ <;> simp [hex, hw] at hg ⊢
      have hp' : p = res (joinPath rec_dir n) := by
        unfold delete_handler at hp
        rw [if_neg hg] at hp
        by_cases hu : unl (res (joinPath rec_dir n)) = true
        · rw [if_pos hu] at hp
          simpa using hp.symm
        · rw [if_neg hu] at hp
          simpa using hp.symm
      rw [hp']
      exact ⟨hx.2, hx.1⟩
  · by_cases hg : (nameEmpty n || !ex (res (joinPath rec_dir n)) ||
        !withinDir (res rec_dir) (res (joinPath rec_dir n))) = true
    · unfold download_handler at hp
      rw [if_pos hg] at hp
      exact absurd hp (by simp)
    · have hx : ex (res (joinPath rec_dir n)) = true ∧
          withinDir (res rec_dir) (res (joinPath rec_dir n)) = true := by
        rcases hex : ex (res (joinPath rec_dir n)) with _ | _ <;>
          rcases hw : withinDir (res rec_dir) (res (joinPath rec_dir n))
            with _ | _ <;> simp [hex, hw] at hg ⊢
      have hp' : p = res (joinPath rec_dir n) := by
        unfold download_handler at hp
        rw [if_neg hg] at hp
        by_cases hr : rd (res (joinPath rec_dir n)) = true
        · rw [if_pos hr] at hp
          simpa using hp.symm
        · rw [if_neg hr] at hp
          simp at hp
      rw [hp']
      exact ⟨hx.2, hx.1⟩

/-- Witness for c9_amended at a concrete input: the traversal name
"../../etc/passwd" resolves outside the recordings directory and both
endpoints answer 404 with no deletion and no disclosure. -/
theorem c9_amended_witness :
    (nameEmpty ⟨false, ["..", "..", "etc", "passwd"]⟩ = true ∨
      (fun _ => true) (normComps (joinPath rec_dir
        ⟨false, ["..", "..", "etc", "passwd"]⟩)) = false ∨
      withinDir (normComps rec_dir) (normComps (joinPath rec_dir
        ⟨false, ["..", "..", "etc", "passwd"]⟩)) = false) ∧
    delete_handler normComps (fun _ => true) (fun _ => true)
      ⟨false, ["..", "..", "etc", "passwd"]⟩ = ⟨404, none⟩ ∧
    download_handler normComps (fun _ => true) (fun _ => true)
      ⟨false, ["..", "..", "etc", "passwd"]⟩ = ⟨404, none⟩ :=
  ⟨Or.inr (Or.inr (by decide)),
    (c9_amended normComps (fun _ => true) (fun _ => true) (fun _ => true)
      ⟨false, ["..", "..", "etc", "passwd"]⟩).1
      (Or.inr (Or.inr (by decide)))⟩

/-- Claim C10, confirmed: both the fixed-duration worker and each
session-launching iteration of the wittypi loop clear the session
cancel flag before recording begins (the flag observed at session entry
is false whatever its prior value), and a stop request arriving while
no session is in progress leaves the flag untouched; hence a stop
request that ended an earlier session, or arrived while nothing was
recording, never cancels a subsequently started session. -/
theorem c10_confirmed (env : Env) (seconds now : Int) (s : Sys)
    (next : Option Int) :
    (worker_duration_once env seconds now s).cancelAtStart = some false ∧
    ¬ (wittypi_iteration env next now s).res.cancelAtStart = some true ∧
    (∀ (m : Mode) (rs rt : Option Int) (le : String) (po fl : Bool),
      (post_stop ⟨m, false, rs, rt, le, po⟩ fl).2 = fl) := by
  refine ⟨?_, ?_, ?_⟩
  · simp only [worker_duration_once, do_record_until]
    split
    · rfl
    · split
      · rfl
      · rfl
  · rcases next with _ | t
    · simp [wittypi_iteration]
    · simp only [wittypi_iteration]
      split
      · simp only [do_record_until]
        split
        · simp
        · split
          · simp
          · simp
      · simp
  · intro m rs rt le po fl
    rfl

end Recorder
